import Mathlib

/-!
Verification of the client-side sleep-monitoring data pipeline
(`ThingSpeakAPI` and the overall-analysis page of the dashboard).

The JavaScript source is embedded shallowly:
- ThingSpeak feed field values are strings-or-null; the pipeline only ever
  inspects them through `parseNumericValue` (JS `parseFloat`) and, for the
  subject-identifier field, JS truthiness plus `parseInt`.  A field value is
  therefore modelled by `FieldVal`: `vnull` for `null`/`undefined`/the empty
  string, `vnum q` for a plain decimal numeral denoting `q` (possibly
  whitespace-wrapped), and `vjunk` for a non-empty string that is not a
  numeral at all (both JS parsers yield `NaN` on it).
- JS numbers are modelled by `ℚ`; `Math.round` is `jsRound` (half rounds
  toward positive infinity), `Math.max`/`Math.min` are `max`/`min`.
- Timestamps (`created_at`) are modelled by `Int` (epoch milliseconds, the
  value `new Date(created_at)` compares by).
- `Array.prototype.sort` with the comparator
  `(a, b) => new Date(a.created_at) - new Date(b.created_at)` produces a
  stable sort by timestamp; it is modelled by `List.insertionSort`, which is
  stable and sorted for the same total preorder.
-/

/-- A ThingSpeak feed field value as the pipeline observes it: JS
`null`/`undefined`/empty string, a numeric string with value `q`, or a
non-numeric string. -/
inductive FieldVal where
  | vnull : FieldVal
  | vnum (q : ℚ) : FieldVal
  | vjunk : FieldVal
  deriving DecidableEq

/-- One ThingSpeak feed record (`created_at`, `entry_id`, `field1`..`field8`).
Field 8 (SessionID) is read as a raw string (`none` models JS
`null`/`undefined`), because `groupBySession` tests its truthiness and
`mapSessionId` lowercases and compares it textually. -/
structure FeedRecord where
  created_at : Int
  entry_id : Int
  field1 : FieldVal
  field2 : FieldVal
  field3 : FieldVal
  field4 : FieldVal
  field5 : FieldVal
  field6 : FieldVal
  field7 : FieldVal
  field8 : Option String
  deriving DecidableEq

/-- The four session buckets produced by `groupBySession`. -/
inductive SessionKey where
  | baseline : SessionKey
  | nap1 : SessionKey
  | nap2 : SessionKey
  | nap3 : SessionKey
  deriving DecidableEq

/-- Embeds `ThingSpeakAPI.parseNumericValue`: `null`/`undefined`/empty string
give `null`; `parseFloat` of a non-numeric string is `NaN`, mapped back to
`null`; a numeric string parses to its value. -/
def parseNumericValue : FieldVal → Option ℚ
  | .vnull => none
  | .vnum q => some q
  | .vjunk => none

/-- ASCII lowercasing of one character (the `A`..`Z` range maps to
`a`..`z`). -/
def lowerChar (c : Char) : Char :=
  if 65 ≤ c.toNat ∧ c.toNat ≤ 90 then Char.ofNat (c.toNat + 32) else c

/-- JS `String.prototype.toLowerCase` on the identifiers compared by
`mapSessionId`; these are ASCII, where `toLowerCase` is per-character ASCII
lowering. -/
def lowerStr (s : String) : String :=
  ⟨s.data.map lowerChar⟩

/-- Embeds `ThingSpeakAPI.mapSessionId`: lowercases the identifier and maps
it to a bucket; every unrecognized identifier falls back to `baseline`. -/
def mapSessionId (sessionId : String) : SessionKey :=
  let id := lowerStr sessionId
  if id = "0" ∨ id = "baseline" ∨ id = "base" then .baseline
  else if id = "1" ∨ id = "nap1" then .nap1
  else if id = "2" ∨ id = "nap2" then .nap2
  else if id = "3" ∨ id = "nap3" then .nap3
  else .baseline

/-- The bucket a record lands in inside `groupBySession`: a falsy SessionID
field (JS `null`/`undefined`/empty string) defaults to `baseline`, otherwise
`mapSessionId` decides. -/
def recordSessionKey (feed : FeedRecord) : SessionKey :=
  match feed.field8 with
  | none => .baseline
  | some sid => if sid = "" then .baseline else mapSessionId sid

/-- The `sessions` object built by `groupBySession`, with its four fixed
keys. -/
structure Sessions where
  baseline : List FeedRecord
  nap1 : List FeedRecord
  nap2 : List FeedRecord
  nap3 : List FeedRecord
  deriving DecidableEq

/-- Bucket lookup `sessions[key]`. -/
def Sessions.bucket (s : Sessions) : SessionKey → List FeedRecord
  | .baseline => s.baseline
  | .nap1 => s.nap1
  | .nap2 => s.nap2
  | .nap3 => s.nap3

/-- One iteration of the `feeds.forEach` loop of `groupBySession`: push the
record onto the bucket `recordSessionKey` selects. -/
def pushToSession (s : Sessions) (feed : FeedRecord) : Sessions :=
  match recordSessionKey feed with
  | .baseline => { s with baseline := s.baseline ++ [feed] }
  | .nap1 => { s with nap1 := s.nap1 ++ [feed] }
  | .nap2 => { s with nap2 := s.nap2 ++ [feed] }
  | .nap3 => { s with nap3 := s.nap3 ++ [feed] }

/-- The sort order of the comparator
`(a, b) => new Date(a.created_at) - new Date(b.created_at)`. -/
def byCreatedAt (a b : FeedRecord) : Prop :=
  a.created_at ≤ b.created_at

instance : DecidableRel byCreatedAt :=
  fun a b => inferInstanceAs (Decidable (a.created_at ≤ b.created_at))

instance : IsTotal FeedRecord byCreatedAt :=
  ⟨fun a b => le_total a.created_at b.created_at⟩

instance : IsTrans FeedRecord byCreatedAt :=
  ⟨fun _ _ _ hab hbc => le_trans hab hbc⟩

/-- The per-bucket timestamp sort at the end of `groupBySession`. -/
def sortByTimestamp (l : List FeedRecord) : List FeedRecord :=
  l.insertionSort byCreatedAt

/-- Embeds `ThingSpeakAPI.groupBySession`: distribute each record into its
bucket in order, then sort every bucket by `created_at` ascending.  All four
keys are always present in the result. -/
def groupBySession (feeds : List FeedRecord) : Sessions :=
  let grouped := feeds.foldl pushToSession ⟨[], [], [], []⟩
  { baseline := sortByTimestamp grouped.baseline
    nap1 := sortByTimestamp grouped.nap1
    nap2 := sortByTimestamp grouped.nap2
    nap3 := sortByTimestamp grouped.nap3 }

/-- JS `Math.round`: rounds to the nearest integer, with halves rounding
toward positive infinity. -/
def jsRound (x : ℚ) : Int :=
  ⌊x + 0.5⌋

/-- The final `Math.round(score * 100) / 100` rounding of
`calculateSleepScore` (two decimal places). -/
def jsRound2 (x : ℚ) : ℚ :=
  (jsRound (x * 100) : ℚ) / 100

/-- The five sequential penalty blocks of `calculateSleepScore`, starting
from `score = 100, validReadings = 0`: heart rate, SpO2 and temperature are
used only when non-null and positive; motion and EMG whenever non-null.
Returns the pre-clamp score together with `validReadings`. -/
def rawScoreValid (bpm spo2 temp emg mpu : Option ℚ) : ℚ × Nat :=
  let s0 : ℚ × Nat := (100, 0)
  let s1 := match bpm with
    | some b =>
      if 0 < b then
        (if b < 40 ∨ 80 < b then s0.1 - |b - 60| * 0.5 else s0.1, s0.2 + 1)
      else s0
    | none => s0
  let s2 := match spo2 with
    | some v =>
      if 0 < v then
        (if v < 95 then s1.1 - (95 - v) * 2 else s1.1, s1.2 + 1)
      else s1
    | none => s1
  let s3 := match temp with
    | some t =>
      if 0 < t then
        (if t < 96 ∨ 100 < t then s2.1 - |t - 98| * 1.5 else s2.1, s2.2 + 1)
      else s2
    | none => s2
  let s4 := match mpu with
    | some m => (s3.1 - |m| * 0.1, s3.2 + 1)
    | none => s3
  let s5 := match emg with
    | some e => (s4.1 - |e| * 0.05, s4.2 + 1)
    | none => s4
  s5

/-- The tail of `calculateSleepScore`: clamp the penalized score to
`[0, 100]`, rescale by `validReadings / 3` when fewer than 3 readings were
valid, and round to 2 decimals.  Returns the final score with
`validReadings`. -/
def scoreAndValid (bpm spo2 temp emg mpu : Option ℚ) : ℚ × Nat :=
  let sv := rawScoreValid bpm spo2 temp emg mpu
  let clamped := max 0 (min 100 sv.1)
  let final := if sv.2 < 3 then clamped * ((sv.2 : ℚ) / 3) else clamped
  (jsRound2 final, sv.2)

/-- The result object of `calculateSleepScore` (the Python-API-compatible
format).  `Option` fields model JS `null`. -/
structure SessionMetrics where
  mean_bpm : Option ℚ
  latest_bpm : Option ℚ
  mean_spo2 : Option ℚ
  latest_spo2 : Option ℚ
  min_spo2 : Option ℚ
  latest_ecg : Option ℚ
  latest_emg : Option ℚ
  emg_rms : Option ℚ
  latest_mpu : Option ℚ
  total_motion : Option ℚ
  data_points : Nat
  latest_timestamp : Option Int
  start_timestamp : Option Int
  end_timestamp : Option Int
  hrv_rmssd : Option ℚ
  hrv_sdnn : Option ℚ
  spo2_dip_count : Nat
  sleep_quality_score : Option ℚ
  deriving DecidableEq

/-- Embeds `ThingSpeakAPI.calculateSleepScore`.  An empty session yields the
all-null structure with `data_points = 0` (the code never throws and never
returns a sentinel).  Otherwise only the most recent record is read for the
biometrics; `data_points` and the start/end timestamps come from the whole
session.  (The JS `sessionType` argument is used only for logging and is
omitted.) -/
def calculateSleepScore (sessionFeeds : List FeedRecord) : SessionMetrics :=
  match sessionFeeds.getLast? with
  | none =>
    { mean_bpm := none
      latest_bpm := none
      mean_spo2 := none
      latest_spo2 := none
      min_spo2 := none
      latest_ecg := none
      latest_emg := none
      emg_rms := none
      latest_mpu := none
      total_motion := none
      data_points := 0
      latest_timestamp := none
      start_timestamp := none
      end_timestamp := none
      hrv_rmssd := none
      hrv_sdnn := none
      spo2_dip_count := 0
      sleep_quality_score := none }
  | some latestFeed =>
    let bpm := parseNumericValue latestFeed.field1
    let spo2 := parseNumericValue latestFeed.field2
    let ecg := parseNumericValue latestFeed.field3
    let temp := parseNumericValue latestFeed.field4
    let emg := parseNumericValue latestFeed.field5
    let mpu := parseNumericValue latestFeed.field6
    let sv := scoreAndValid bpm spo2 temp emg mpu
    { mean_bpm := bpm
      latest_bpm := bpm
      mean_spo2 := spo2
      latest_spo2 := spo2
      min_spo2 := spo2
      latest_ecg := ecg
      latest_emg := emg
      emg_rms := emg
      latest_mpu := mpu
      total_motion := mpu
      data_points := sessionFeeds.length
      latest_timestamp := some latestFeed.created_at
      start_timestamp := sessionFeeds.head?.map (fun f => f.created_at)
      end_timestamp := some latestFeed.created_at
      hrv_rmssd := none
      hrv_sdnn := none
      spo2_dip_count := 0
      sleep_quality_score := some sv.1 }

/-- JS `parseInt` truncation of a numeral's value toward zero. -/
def ratTrunc (q : ℚ) : Int :=
  if 0 ≤ q then ⌊q⌋ else ⌈q⌉

/-- The filter predicate of `parseSubjectData`:
`userIdValue && parseInt(userIdValue) === subjectId` on `field7` (UserID).
A falsy field (null/undefined/empty string) is rejected outright; a
non-numeric string is truthy but `parseInt` gives `NaN`, which never equals
`subjectId`; a numeric string matches when its truncation equals the
subject id. -/
def matchesSubject (feed : FeedRecord) (subjectId : Int) : Bool :=
  match feed.field7 with
  | .vnull => false
  | .vjunk => false
  | .vnum q => ratTrunc q == subjectId

/-- The response body of the ThingSpeak feeds endpoint as the pipeline uses
it (`allData.feeds`; the `channel` metadata is carried around opaquely). -/
structure FeedData where
  feeds : List FeedRecord
  deriving DecidableEq

/-- The per-subject object built by `parseSubjectData` (session fields are
JS `null` in the zero-match case, otherwise `calculateSleepScore` results;
the wall-clock `lastUpdated` string is omitted from the model). -/
structure SubjectData where
  baseline : Option SessionMetrics
  nap1 : Option SessionMetrics
  nap2 : Option SessionMetrics
  nap3 : Option SessionMetrics
  rawData : List FeedRecord
  deriving DecidableEq

/-- Embeds `ThingSpeakAPI.parseSubjectData`: an empty `feeds` array returns
JS `null` (`none`); a non-empty array with no record matching the subject
returns the all-null-session object with empty `rawData`; otherwise the
matching records are grouped and scored per session. -/
def parseSubjectData (allData : FeedData) (subjectId : Int) : Option SubjectData :=
  let feeds := allData.feeds
  if feeds.isEmpty then none
  else
    let subjectFeeds := feeds.filter (fun f => matchesSubject f subjectId)
    if subjectFeeds.isEmpty then
      some { baseline := none, nap1 := none, nap2 := none, nap3 := none,
             rawData := [] }
    else
      let sessions := groupBySession subjectFeeds
      some { baseline := some (calculateSleepScore sessions.baseline)
             nap1 := some (calculateSleepScore sessions.nap1)
             nap2 := some (calculateSleepScore sessions.nap2)
             nap3 := some (calculateSleepScore sessions.nap3)
             rawData := subjectFeeds }

/-- Outcome of the local companion-API attempt inside `fetchData`: the
response was ok with a body, the response had a non-ok status (the code
falls through WITHOUT disabling the local API), or the fetch threw (the
code sets `useLocalAPI = false` and falls through). -/
inductive LocalOutcome where
  | ok (data : FeedData)
  | notOk
  | errored
  deriving DecidableEq

/-- Outcome of the direct ThingSpeak fetch inside `fetchData`: a parsed
body, or a failure (either the explicit throw on a non-ok HTTP status or a
transport rejection, both landing in the same `catch`). -/
inductive RemoteOutcome where
  | ok (data : FeedData)
  | failed (err : String)
  deriving DecidableEq

/-- The mutable state of a `ThingSpeakAPI` instance that `fetchData`
touches: the `useLocalAPI` flag and the single `allData` entry of
`this.cache` (`none` when the key was never set). -/
structure ClientState where
  useLocalAPI : Bool
  cache : Option FeedData
  deriving DecidableEq

/-- The ThingSpeak-direct tail of `fetchData`: on success the body is cached
and returned; on failure the cached copy is returned unmodified when one
exists, otherwise the error propagates to the caller. -/
def fetchDataRemote (st : ClientState) (remote : RemoteOutcome) :
    Except String (FeedData × ClientState) :=
  match remote with
  | .ok d => .ok (d, { st with cache := some d })
  | .failed e =>
    match st.cache with
    | some cached => .ok (cached, st)
    | none => .error e

/-- Embeds `ThingSpeakAPI.fetchData` as a function of the fetch outcomes:
when `useLocalAPI` is set the companion API is tried first (a success is
cached and returned; an exception permanently clears `useLocalAPI`; a
non-ok response just falls through); otherwise, and on any local failure,
the ThingSpeak branch `fetchDataRemote` runs.  (The hardcoded configuration
always exists — `getConfig` returns a fallback object — so the
missing-configuration throw is unreachable and not modelled.) -/
def fetchData (st : ClientState) (localOutcome : LocalOutcome)
    (remote : RemoteOutcome) : Except String (FeedData × ClientState) :=
  if st.useLocalAPI then
    match localOutcome with
    | .ok d => .ok (d, { st with cache := some d })
    | .notOk => fetchDataRemote st remote
    | .errored => fetchDataRemote { st with useLocalAPI := false } remote
  else
    fetchDataRemote st remote

/-- The shape the overall-analysis page reads per subject: each session slot
is either JS `null` (`none`) or an object whose `value` field carries the
session score (`some v`), as produced by the processed-data API. -/
structure SubjectScores where
  baseline : Option ℚ
  nap1 : Option ℚ
  nap2 : Option ℚ
  nap3 : Option ℚ
  deriving DecidableEq

/-- The inner `for j = 1..3` loop of `displayComparativeAnalysis`: sum and
count the nap sessions that have data. -/
def napTotalCount (s : SubjectScores) : ℚ × Nat :=
  [s.nap1, s.nap2, s.nap3].foldl
    (fun acc nap =>
      match nap with
      | some v => (acc.1 + v, acc.2 + 1)
      | none => acc)
    (0, 0)

/-- The per-subject average nap score (`total / count` when `count > 0`,
undefined otherwise — a subject with no nap data is skipped). -/
def napAvg (s : SubjectScores) : Option ℚ :=
  let tc := napTotalCount s
  if tc.2 = 0 then none else some (tc.1 / (tc.2 : ℚ))

/-- One iteration of the best/worst scan of `displayComparativeAnalysis`
(subject `i`): a missing subject or a subject without nap data leaves the
accumulators unchanged; otherwise the best slot is replaced exactly when
`avg > bestAvg` and the worst slot exactly when `avg < worstAvg`.  The
accumulators start as `none`, standing for the JS seeds
`-Infinity`/`Infinity`, which any finite average beats. -/
def bestWorstStep (i : Nat) (subject : Option SubjectScores)
    (acc : Option (Nat × ℚ) × Option (Nat × ℚ)) :
    Option (Nat × ℚ) × Option (Nat × ℚ) :=
  match subject with
  | none => acc
  | some s =>
    match napAvg s with
    | none => acc
    | some avg =>
      let best := match acc.1 with
        | none => some (i, avg)
        | some (j, b) => if b < avg then some (i, avg) else some (j, b)
      let worst := match acc.2 with
        | none => some (i, avg)
        | some (j, w) => if avg < w then some (i, avg) else some (j, w)
      (best, worst)

/-- The best/worst-performer scan of `displayComparativeAnalysis` over
subjects 1..3 in ascending order.  Returns
`(bestSubject with bestAvg, worstSubject with worstAvg)`. -/
def bestWorst (s1 s2 s3 : Option SubjectScores) :
    Option (Nat × ℚ) × Option (Nat × ℚ) :=
  bestWorstStep 3 s3 (bestWorstStep 2 s2 (bestWorstStep 1 s1 (none, none)))

/-- One iteration of the baseline-comparisons loop of
`displayComparativeAnalysis` (subject `i`): the subject is skipped when it
is missing, when its `baseline` slot is JS `null`, or when it has no nap
data; otherwise an entry `(i, baselineValue, napAvg)` is reported.  No
check that `baselineValue` is non-zero exists in the code. -/
def deltaEntry (i : Nat) (subject : Option SubjectScores) :
    Option (Nat × ℚ × ℚ) :=
  match subject with
  | none => none
  | some s =>
    match s.baseline with
    | none => none
    | some b =>
      match napAvg s with
      | none => none
      | some avg => some (i, b, avg)

/-- The reported percentage change
`((napAvg - baselineValue) / baselineValue) * 100`.  (In JS a zero baseline
makes this `±Infinity`, which has no counterpart in `ℚ`; the quantity is
faithful whenever the baseline is non-zero.) -/
def percentChange (b avg : ℚ) : ℚ :=
  ((avg - b) / b) * 100

/-- The baseline-comparisons list of `displayComparativeAnalysis`: the
entries reported for subjects 1..3 in order. -/
def baselineDeltaEntries (s1 s2 s3 : Option SubjectScores) :
    List (Nat × ℚ × ℚ) :=
  [deltaEntry 1 s1, deltaEntry 2 s2, deltaEntry 3 s3].reduceOption

/-! Helper lemmas shared by the claim theorems. -/

/-- The clamp `Math.max(0, Math.min(100, score))` always lands in
`[0, 100]`. -/
theorem clampScore_bounds (x : ℚ) :
    0 ≤ max 0 (min 100 x) ∧ max 0 (min 100 x) ≤ 100 :=
  ⟨le_max_left 0 _, max_le (by norm_num) (min_le_left _ _)⟩

/-- Two-decimal rounding keeps a value of `[0, 100]` inside `[0, 100]`. -/
theorem jsRound2_bounds (x : ℚ) (h0 : 0 ≤ x) (h1 : x ≤ 100) :
    0 ≤ jsRound2 x ∧ jsRound2 x ≤ 100 := by
  unfold jsRound2 jsRound
  have hf0 : (0 : ℤ) ≤ ⌊x * 100 + 0.5⌋ := Int.floor_nonneg.mpr (by linarith)
  have hub : ⌊x * 100 + 0.5⌋ ≤ 10000 := by
    have hmono : ⌊x * 100 + 0.5⌋ ≤ ⌊(10000.5 : ℚ)⌋ := Int.floor_le_floor (by linarith)
    have hval : ⌊(10000.5 : ℚ)⌋ = 10000 := by norm_num [Int.floor_eq_iff]
    omega
  constructor
  · exact div_nonneg (by exact_mod_cast hf0) (by norm_num)
  · have hq : (⌊x * 100 + 0.5⌋ : ℚ) ≤ 10000 := by exact_mod_cast hub
    linarith

/-- The final score produced by `scoreAndValid` is within `[0, 100]` for
every combination of parsed channel values. -/
theorem scoreAndValid_fst_bounds (bpm spo2 temp emg mpu : Option ℚ) :
    0 ≤ (scoreAndValid bpm spo2 temp emg mpu).1 ∧
    (scoreAndValid bpm spo2 temp emg mpu).1 ≤ 100 := by
  dsimp only [scoreAndValid]
  obtain ⟨hc0, hc1⟩ := clampScore_bounds (rawScoreValid bpm spo2 temp emg mpu).1
  by_cases hn : (rawScoreValid bpm spo2 temp emg mpu).2 < 3
  · simp only [hn, if_true]
    have hn2 : ((rawScoreValid bpm spo2 temp emg mpu).2 : ℚ) ≤ 2 := by
      exact_mod_cast Nat.lt_succ_iff.mp hn
    have hfrac0 : 0 ≤ ((rawScoreValid bpm spo2 temp emg mpu).2 : ℚ) / 3 := by
      positivity
    have hfrac1 : ((rawScoreValid bpm spo2 temp emg mpu).2 : ℚ) / 3 ≤ 1 := by
      linarith
    exact jsRound2_bounds _ (mul_nonneg hc0 hfrac0)
      (le_trans (mul_le_of_le_one_right hc0 hfrac1) hc1)
  · simp only [hn, if_false]
    exact jsRound2_bounds _ hc0 hc1

/-- The record pushed by one `groupBySession` loop iteration lands at the
end of exactly the bucket `recordSessionKey` selects. -/
theorem pushToSession_bucket (s : Sessions) (f : FeedRecord) (k : SessionKey) :
    (pushToSession s f).bucket k =
      s.bucket k ++ (if recordSessionKey f = k then [f] else []) := by
  cases hk : recordSessionKey f <;> cases k <;>
    simp [pushToSession, Sessions.bucket, hk]

/-- After the distribution loop of `groupBySession`, each bucket holds
exactly the records mapped to it, in input order. -/
theorem foldl_push_bucket (feeds : List FeedRecord) (init : Sessions)
    (k : SessionKey) :
    (feeds.foldl pushToSession init).bucket k =
      init.bucket k ++ feeds.filter (fun f => recordSessionKey f == k) := by
  induction feeds generalizing init with
  | nil => simp
  | cons f fs ih =>
    simp only [List.foldl_cons, List.filter_cons]
    rw [ih, pushToSession_bucket]
    by_cases h : recordSessionKey f = k <;> simp [h, List.append_assoc]

/-- Each bucket of `groupBySession` is the timestamp-sorted list of the
records mapped to it. -/
theorem groupBySession_bucket (feeds : List FeedRecord) (k : SessionKey) :
    (groupBySession feeds).bucket k =
      sortByTimestamp (feeds.filter (fun f => recordSessionKey f == k)) := by
  have h := foldl_push_bucket feeds ⟨[], [], [], []⟩ k
  cases k <;>
    simpa [groupBySession, Sessions.bucket] using congrArg sortByTimestamp h

/-! Claim theorems. -/

/-- Claim C1: for every record list, the composite sleep-quality score
returned by `calculateSleepScore` in `sleep_quality_score`, when non-null,
lies within `[0, 100]` inclusive, including after the `validReadings < 3`
confidence rescale and the 2-decimal rounding. -/
theorem sleep_quality_score_in_range :
    ∀ (sessionFeeds : List FeedRecord) (sc : ℚ),
      (calculateSleepScore sessionFeeds).sleep_quality_score = some sc →
      0 ≤ sc ∧ sc ≤ 100 := by
  intro feeds sc h
  cases hlast : feeds.getLast? with
  | none => simp [calculateSleepScore, hlast] at h
  | some r =>
    simp only [calculateSleepScore, hlast, Option.some.injEq] at h
    rw [← h]
    exact scoreAndValid_fst_bounds _ _ _ _ _

/-- Witness for C1: a concrete all-null session scores `0`, which the range
theorem places in `[0, 100]`. -/
theorem sleep_quality_score_in_range_witness :
    (calculateSleepScore
        [⟨0, 0, .vnull, .vnull, .vnull, .vnull, .vnull, .vnull, .vnull, none⟩]).sleep_quality_score =
      some 0 ∧ (0 ≤ (0 : ℚ) ∧ (0 : ℚ) ≤ 100) := by
  have heval :
      (calculateSleepScore
          [⟨0, 0, .vnull, .vnull, .vnull, .vnull, .vnull, .vnull, .vnull, none⟩]).sleep_quality_score =
        some 0 := by
    norm_num [calculateSleepScore, scoreAndValid, rawScoreValid, jsRound2,
      jsRound, parseNumericValue, List.getLast?, Int.floor_eq_iff]
  exact ⟨heval, sleep_quality_score_in_range _ 0 heval⟩

/-- Claim C2: for the empty record list, `calculateSleepScore` returns
normally (it is a total function — never throws, never a sentinel like
`-1`) with every nullable metric field null and `data_points = 0`. -/
theorem calculateSleepScore_empty_all_null :
    calculateSleepScore [] =
      { mean_bpm := none, latest_bpm := none, mean_spo2 := none,
        latest_spo2 := none, min_spo2 := none, latest_ecg := none,
        latest_emg := none, emg_rms := none, latest_mpu := none,
        total_motion := none, data_points := 0, latest_timestamp := none,
        start_timestamp := none, end_timestamp := none, hrv_rmssd := none,
        hrv_sdnn := none, spo2_dip_count := 0, sleep_quality_score := none } :=
  rfl

/-- Counterexample for C3: for the stated session (heart rate 100, SpO2 90,
temperature 98, motion 0, EMG 0) the composite score is indeed `70.00`, but
`validReadings` is not `4` — motion and EMG are counted whenever non-null,
even at zero, so the count is `5`. -/
theorem validReadings_four_counterexample :
    (calculateSleepScore
        [⟨0, 1, .vnum 100, .vnum 90, .vnull, .vnum 98, .vnum 0, .vnum 0, .vnull, none⟩]).sleep_quality_score =
      some 70 ∧
    (scoreAndValid (some 100) (some 90) (some 98) (some 0) (some 0)).2 ≠ 4 := by
  constructor
  · norm_num [calculateSleepScore, scoreAndValid, rawScoreValid, jsRound2,
      jsRound, parseNumericValue, List.getLast?]
  · norm_num [scoreAndValid, rawScoreValid]

/-- Claim C3 (amended): for a session whose latest record has heart rate
100, SpO2 90, temperature 98, motion 0 and EMG 0, `calculateSleepScore`
produces composite score `70.00` and counts exactly 5 valid readings (all
five non-null channels count; motion and EMG count even when zero). -/
theorem score_session_hr100_spo2_90 :
    ∀ (feeds : List FeedRecord) (r : FeedRecord),
      feeds.getLast? = some r →
      r.field1 = .vnum 100 → r.field2 = .vnum 90 → r.field4 = .vnum 98 →
      r.field5 = .vnum 0 → r.field6 = .vnum 0 →
      (calculateSleepScore feeds).sleep_quality_score = some 70 ∧
      (scoreAndValid (parseNumericValue r.field1) (parseNumericValue r.field2)
        (parseNumericValue r.field4) (parseNumericValue r.field5)
        (parseNumericValue r.field6)).2 = 5 := by
  intro feeds r hlast h1 h2 h4 h5 h6
  simp only [calculateSleepScore, hlast]
  norm_num [h1, h2, h4, h5, h6, scoreAndValid, rawScoreValid, jsRound2,
    jsRound, parseNumericValue]

/-- Witness for C3 (amended): the singleton session with those readings. -/
theorem score_session_hr100_spo2_90_witness :
    (calculateSleepScore
        [⟨0, 2, .vnum 100, .vnum 90, .vnull, .vnum 98, .vnum 0, .vnum 0, .vnull, none⟩]).sleep_quality_score =
      some 70 ∧
    (scoreAndValid (parseNumericValue (FieldVal.vnum 100))
      (parseNumericValue (FieldVal.vnum 90)) (parseNumericValue (FieldVal.vnum 98))
      (parseNumericValue (FieldVal.vnum 0)) (parseNumericValue (FieldVal.vnum 0))).2 = 5 :=
  score_session_hr100_spo2_90
    [⟨0, 2, .vnum 100, .vnum 90, .vnull, .vnum 98, .vnum 0, .vnum 0, .vnull, none⟩]
    ⟨0, 2, .vnum 100, .vnum 90, .vnull, .vnum 98, .vnum 0, .vnum 0, .vnull, none⟩
    rfl rfl rfl rfl rfl rfl

/-- Claim C4: for a session whose latest record has heart rate 60 and every
other biometric field null, `calculateSleepScore` counts exactly 1 valid
reading, applies no penalty, rescales by `1/3` and returns `33.33`. -/
theorem score_session_only_hr60 :
    ∀ (feeds : List FeedRecord) (r : FeedRecord),
      feeds.getLast? = some r →
      r.field1 = .vnum 60 → r.field2 = .vnull → r.field3 = .vnull →
      r.field4 = .vnull → r.field5 = .vnull → r.field6 = .vnull →
      (calculateSleepScore feeds).sleep_quality_score = some (3333 / 100) ∧
      (scoreAndValid (parseNumericValue r.field1) (parseNumericValue r.field2)
        (parseNumericValue r.field4) (parseNumericValue r.field5)
        (parseNumericValue r.field6)).2 = 1 := by
  intro feeds r hlast h1 h2 h3 h4 h5 h6
  simp only [calculateSleepScore, hlast]
  norm_num [h1, h2, h4, h5, h6, scoreAndValid, rawScoreValid, jsRound2,
    jsRound, parseNumericValue, Int.floor_eq_iff]

/-- Witness for C4: the singleton session with only a heart-rate reading. -/
theorem score_session_only_hr60_witness :
    (calculateSleepScore
        [⟨0, 3, .vnum 60, .vnull, .vnull, .vnull, .vnull, .vnull, .vnull, none⟩]).sleep_quality_score =
      some (3333 / 100) ∧
    (scoreAndValid (parseNumericValue (FieldVal.vnum 60))
      (parseNumericValue FieldVal.vnull) (parseNumericValue FieldVal.vnull)
      (parseNumericValue FieldVal.vnull) (parseNumericValue FieldVal.vnull)).2 = 1 :=
  score_session_only_hr60
    [⟨0, 3, .vnum 60, .vnull, .vnull, .vnull, .vnull, .vnull, .vnull, none⟩]
    ⟨0, 3, .vnum 60, .vnull, .vnull, .vnull, .vnull, .vnull, .vnull, none⟩
    rfl rfl rfl rfl rfl rfl rfl

/-- Claim C5: session-identifier normalization is case-insensitive and
total: a record carrying `"NAP2"` is grouped into the `nap2` bucket, a
record with unrecognized identifier `"7"` is grouped into `baseline`, and a
record with an absent session-identifier field is grouped into
`baseline`. -/
theorem session_identifier_normalization :
    mapSessionId "NAP2" = SessionKey.nap2 ∧
    mapSessionId "7" = SessionKey.baseline ∧
    groupBySession
        [⟨5, 1, .vnull, .vnull, .vnull, .vnull, .vnull, .vnull, .vnull, some "NAP2"⟩] =
      ⟨[], [], [⟨5, 1, .vnull, .vnull, .vnull, .vnull, .vnull, .vnull, .vnull, some "NAP2"⟩], []⟩ ∧
    groupBySession
        [⟨6, 2, .vnull, .vnull, .vnull, .vnull, .vnull, .vnull, .vnull, some "7"⟩] =
      ⟨[⟨6, 2, .vnull, .vnull, .vnull, .vnull, .vnull, .vnull, .vnull, some "7"⟩], [], [], []⟩ ∧
    groupBySession
        [⟨7, 3, .vnull, .vnull, .vnull, .vnull, .vnull, .vnull, .vnull, none⟩] =
      ⟨[⟨7, 3, .vnull, .vnull, .vnull, .vnull, .vnull, .vnull, .vnull, none⟩], [], [], []⟩ := by
  decide

/-- Claim C6: for every input record list, `groupBySession` returns all
four session keys (a key with zero records maps to the empty list, never
omitted), and each bucket is sorted ascending by creation timestamp. -/
theorem groupBySession_buckets_sorted_present :
    ∀ feeds : List FeedRecord,
      (∀ k, List.Sorted byCreatedAt ((groupBySession feeds).bucket k)) ∧
      (∀ k, (∀ f ∈ feeds, recordSessionKey f ≠ k) →
        (groupBySession feeds).bucket k = []) := by
  intro feeds
  constructor
  · intro k
    rw [groupBySession_bucket]
    exact List.sorted_insertionSort byCreatedAt _
  · intro k h
    rw [groupBySession_bucket]
    have hfil : feeds.filter (fun f => recordSessionKey f == k) = [] := by
      simp only [List.filter_eq_nil_iff]
      intro f hf
      simpa using h f hf
    rw [hfil]
    rfl

/-- Witness for C6: on a concrete one-record feed the baseline bucket is
sorted and the untouched `nap3` bucket is present and empty. -/
theorem groupBySession_buckets_sorted_present_witness :
    List.Sorted byCreatedAt
      ((groupBySession
          [⟨9, 4, .vnull, .vnull, .vnull, .vnull, .vnull, .vnull, .vnull, none⟩]).bucket
        SessionKey.baseline) ∧
    (groupBySession
        [⟨9, 4, .vnull, .vnull, .vnull, .vnull, .vnull, .vnull, .vnull, none⟩]).bucket
      SessionKey.nap3 = [] :=
  ⟨(groupBySession_buckets_sorted_present _).1 SessionKey.baseline,
   (groupBySession_buckets_sorted_present _).2 SessionKey.nap3 (by decide)⟩

/-- Claim C7: best/worst subject selection is argmax/argmin of the
per-subject average nap score with ties broken by the lowest subject id
(the first encountered in ascending iteration): the best value is the
maximum of the three averages and its index is the first subject attaining
it, and dually for the worst. -/
theorem bestWorst_argmax_argmin_tie_lowest :
    ∀ (s1 s2 s3 : SubjectScores) (a1 a2 a3 : ℚ),
      napAvg s1 = some a1 → napAvg s2 = some a2 → napAvg s3 = some a3 →
      bestWorst (some s1) (some s2) (some s3) =
        (some (if a2 ≤ a1 ∧ a3 ≤ a1 then 1 else if a3 ≤ a2 then 2 else 3,
               max a1 (max a2 a3)),
         some (if a1 ≤ a2 ∧ a1 ≤ a3 then 1 else if a2 ≤ a3 then 2 else 3,
               min a1 (min a2 a3))) := by
  intro s1 s2 s3 a1 a2 a3 h1 h2 h3
  simp only [bestWorst, bestWorstStep, h1, h2, h3]
  rcases lt_trichotomy a1 a2 with h12 | h12 | h21
  · have h21 : ¬ a2 < a1 := by linarith
    have hr1 : ¬ (a2 ≤ a1 ∧ a3 ≤ a1) := by rintro ⟨hh, _⟩; linarith
    by_cases h23 : a2 < a3
    · have hr2 : ¬ a3 ≤ a2 := by linarith
      have hmax : max a1 (max a2 a3) = a3 := by
        rw [max_eq_right h23.le, max_eq_right (by linarith : a1 ≤ a3)]
      have h31 : ¬ a3 < a1 := by linarith
      have hw1 : a1 ≤ a2 ∧ a1 ≤ a3 := ⟨h12.le, by linarith⟩
      have hmin : min a1 (min a2 a3) = a1 :=
        min_eq_left (le_min h12.le (by linarith))
      simp only [h12, h21, h23, h31, hr1, hr2, hw1, hmax, hmin, if_true,
        if_false, ite_true, ite_false, and_self, eq_self_iff_true, true_and,
        false_and, and_true, and_false]
    · have hr2 : a3 ≤ a2 := not_lt.mp h23
      have hmax : max a1 (max a2 a3) = a2 := by
        rw [max_eq_left hr2, max_eq_right h12.le]
      by_cases h31 : a3 < a1
      · have hw1 : ¬ (a1 ≤ a2 ∧ a1 ≤ a3) := by rintro ⟨_, hh⟩; linarith
        have hw2 : ¬ a2 ≤ a3 := by linarith
        have hmin : min a1 (min a2 a3) = a3 := by
          rw [min_eq_right (by linarith : a3 ≤ a2), min_eq_right h31.le]
        simp only [h12, h21, h23, h31, hr1, hr2, hw1, hw2, hmax, hmin, if_true,
          if_false, ite_true, ite_false, and_self, eq_self_iff_true, true_and,
          false_and, and_true, and_false]
      · have hw1 : a1 ≤ a2 ∧ a1 ≤ a3 := ⟨h12.le, by linarith⟩
        have hmin : min a1 (min a2 a3) = a1 :=
          min_eq_left (le_min h12.le (by linarith))
        simp only [h12, h21, h23, h31, hr1, hr2, hw1, hmax, hmin, if_true,
          if_false, ite_true, ite_false, and_self, eq_self_iff_true, true_and,
          false_and, and_true, and_false]
  · subst h12
    have hlt : ¬ a1 < a1 := lt_irrefl a1
    by_cases h13 : a1 < a3
    · have hr1 : ¬ (a1 ≤ a1 ∧ a3 ≤ a1) := by rintro ⟨_, hh⟩; linarith
      have hr2 : ¬ a3 ≤ a1 := by linarith
      have hmax : max a1 (max a1 a3) = a3 := by
        rw [max_eq_right h13.le, max_eq_right h13.le]
      have h31 : ¬ a3 < a1 := by linarith
      have hw1 : a1 ≤ a1 ∧ a1 ≤ a3 := ⟨le_refl a1, h13.le⟩
      have hmin : min a1 (min a1 a3) = a1 :=
        min_eq_left (le_min (le_refl a1) h13.le)
      simp only [hlt, h13, h31, hr1, hr2, hw1, hmax, hmin, if_true, if_false,
        ite_true, ite_false, and_self, eq_self_iff_true, true_and, false_and,
        and_true, and_false]
    · have ha31 : a3 ≤ a1 := by linarith
      have hr1 : a1 ≤ a1 ∧ a3 ≤ a1 := ⟨le_refl a1, ha31⟩
      have hmax : max a1 (max a1 a3) = a1 := by
        rw [max_eq_left ha31, max_self]
      by_cases h31 : a3 < a1
      · have hw1 : ¬ (a1 ≤ a1 ∧ a1 ≤ a3) := by rintro ⟨_, hh⟩; linarith
        have hw2 : ¬ a1 ≤ a3 := by linarith
        have hmin : min a1 (min a1 a3) = a3 := by
          rw [min_eq_right h31.le, min_eq_right h31.le]
        simp only [hlt, h13, h31, hw1, hw2, hr1, hmax, hmin, if_true, if_false,
          ite_true, ite_false, and_self, eq_self_iff_true, true_and, false_and,
          and_true, and_false]
      · have ha13 : a1 ≤ a3 := by linarith
        have hw1 : a1 ≤ a1 ∧ a1 ≤ a3 := ⟨le_refl a1, ha13⟩
        have hmin : min a1 (min a1 a3) = a1 := by
          rw [min_eq_left ha13, min_self]
        simp only [hlt, h13, h31, hw1, hr1, hmax, hmin, if_true, if_false,
          ite_true, ite_false, and_self, eq_self_iff_true, true_and, false_and,
          and_true, and_false]
  · have h12n : ¬ a1 < a2 := by linarith
    by_cases h13 : a1 < a3
    · have hr1 : ¬ (a2 ≤ a1 ∧ a3 ≤ a1) := by rintro ⟨_, hh⟩; linarith
      have hr2 : ¬ a3 ≤ a2 := by linarith
      have hmax : max a1 (max a2 a3) = a3 := by
        rw [max_eq_right (by linarith : a2 ≤ a3), max_eq_right h13.le]
      have h32 : ¬ a3 < a2 := by linarith
      have hw1 : ¬ (a1 ≤ a2 ∧ a1 ≤ a3) := by rintro ⟨hh, _⟩; linarith
      have hw2 : a2 ≤ a3 := by linarith
      have hmin : min a1 (min a2 a3) = a2 := by
        rw [min_eq_left hw2, min_eq_right h21.le]
      simp only [h21, h12n, h13, h32, hr1, hr2, hw1, hw2, hmax, hmin, if_true,
        if_false, ite_true, ite_false, and_self, eq_self_iff_true, true_and,
        false_and, and_true, and_false]
    · have ha31 : a3 ≤ a1 := by linarith
      have hr1 : a2 ≤ a1 ∧ a3 ≤ a1 := ⟨h21.le, ha31⟩
      have hmax : max a1 (max a2 a3) = a1 :=
        max_eq_left (max_le h21.le ha31)
      by_cases h32 : a3 < a2
      · have hw1 : ¬ (a1 ≤ a2 ∧ a1 ≤ a3) := by rintro ⟨hh, _⟩; linarith
        have hw2 : ¬ a2 ≤ a3 := by linarith
        have hmin : min a1 (min a2 a3) = a3 := by
          rw [min_eq_right h32.le, min_eq_right (by linarith : a3 ≤ a1)]
        simp only [h21, h12n, h13, h32, hw1, hw2, hr1, hmax, hmin, if_true,
          if_false, ite_true, ite_false, and_self, eq_self_iff_true, true_and,
          false_and, and_true, and_false]
      · have hw1 : ¬ (a1 ≤ a2 ∧ a1 ≤ a3) := by rintro ⟨hh, _⟩; linarith
        have hw2 : a2 ≤ a3 := by linarith
        have hmin : min a1 (min a2 a3) = a2 := by
          rw [min_eq_left hw2, min_eq_right h21.le]
        simp only [h21, h12n, h13, h32, hw1, hw2, hr1, hmax, hmin, if_true,
          if_false, ite_true, ite_false, and_self, eq_self_iff_true, true_and,
          false_and, and_true, and_false]

/-- Witness for C7: per-subject averages 70, 85, 85 for subjects 1, 2, 3
select subject 2 as best (first maximum) and subject 1 as worst. -/
theorem bestWorst_argmax_argmin_tie_lowest_witness :
    bestWorst (some ⟨none, some 70, some 70, some 70⟩)
      (some ⟨none, some 85, some 85, some 85⟩)
      (some ⟨none, some 85, some 85, some 85⟩) = (some (2, 85), some (1, 70)) := by
  have h := bestWorst_argmax_argmin_tie_lowest
    ⟨none, some 70, some 70, some 70⟩ ⟨none, some 85, some 85, some 85⟩
    ⟨none, some 85, some 85, some 85⟩ 70 85 85
    (by norm_num [napAvg, napTotalCount]) (by norm_num [napAvg, napTotalCount])
    (by norm_num [napAvg, napTotalCount])
  rw [h]
  norm_num

/-- Counterexample for C8: a subject whose baseline score is exactly zero
is NOT excluded from delta reporting — its entry is still produced (in JS
the division by zero renders an infinite percentage instead of skipping the
subject). -/
theorem baselineDelta_zero_baseline_counterexample :
    baselineDeltaEntries (some ⟨some 0, some 50, none, none⟩) none none =
      [(1, 0, 50)] := by
  norm_num [baselineDeltaEntries, deltaEntry, napAvg, napTotalCount]

/-- Claim C8 (amended): a baseline-delta entry is produced for a subject
exactly when the subject is present, its baseline slot is non-null and at
least one nap has a score; a subject with an absent baseline is excluded
without error.  A zero baseline value is NOT excluded: the code has no
non-zero check, so the entry is still reported (with an infinite JS
percentage). -/
theorem baselineDelta_inclusion_rule :
    ∀ (s1 s2 s3 : Option SubjectScores) (i : Nat) (s : SubjectScores),
      baselineDeltaEntries s1 s2 s3 =
        [deltaEntry 1 s1, deltaEntry 2 s2, deltaEntry 3 s3].reduceOption ∧
      deltaEntry i none = none ∧
      (deltaEntry i (some s) = none ↔ s.baseline = none ∨ napAvg s = none) ∧
      (∀ b avg, s.baseline = some b → napAvg s = some avg →
        deltaEntry i (some s) = some (i, b, avg)) := by
  intro s1 s2 s3 i s
  refine ⟨rfl, rfl, ?_, ?_⟩
  · cases hb : s.baseline <;> cases ha : napAvg s <;> simp [deltaEntry, hb, ha]
  · intro b avg hb ha
    simp [deltaEntry, hb, ha]

/-- Witness for C8 (amended): a subject with baseline 80 and one nap score
90 is reported with entry `(2, 80, 90)`. -/
theorem baselineDelta_inclusion_rule_witness :
    deltaEntry 2 (some ⟨some 80, some 90, none, none⟩) = some (2, 80, 90) :=
  (baselineDelta_inclusion_rule none none none 2
      ⟨some 80, some 90, none, none⟩).2.2.2 80 90 rfl
    (by norm_num [napAvg, napTotalCount])

/-- Claim C9: a successful raw fetch caches its body; a failed raw fetch
(non-success HTTP status or transport failure, both landing in the same
catch) after a prior successful fetch returns exactly the previously cached
feed set with the state unmodified, and with no cache the error propagates
to the caller. -/
theorem fetchData_stale_cache_fallback :
    ∀ (cache0 : Option FeedData) (lo lo2 : LocalOutcome) (d : FeedData)
      (e : String),
      fetchData ⟨false, cache0⟩ lo (.ok d) = .ok (d, ⟨false, some d⟩) ∧
      fetchData ⟨false, some d⟩ lo2 (.failed e) = .ok (d, ⟨false, some d⟩) ∧
      fetchData ⟨false, none⟩ lo2 (.failed e) = .error e := by
  intro cache0 lo lo2 d e
  exact ⟨rfl, rfl, rfl⟩

/-- Claim C10: `parseSubjectData` distinguishes the two zero-data cases: an
empty feeds array returns JS null (no report object), while a non-empty
feeds array with no record matching the subject returns an object whose
four session fields are all null and whose `rawData` is the empty list. -/
theorem parseSubjectData_zero_data_cases :
    (∀ sid : Int, parseSubjectData ⟨[]⟩ sid = none) ∧
    ∀ (d : FeedData) (sid : Int), d.feeds ≠ [] →
      (∀ f ∈ d.feeds, matchesSubject f sid = false) →
      parseSubjectData d sid =
        some { baseline := none, nap1 := none, nap2 := none, nap3 := none,
               rawData := [] } := by
  constructor
  · intro sid; rfl
  · intro d sid hne hnomatch
    have hfil : d.feeds.filter (fun f => matchesSubject f sid) = [] := by
      simp only [List.filter_eq_nil_iff]
      intro f hf
      simp [hnomatch f hf]
    simp [parseSubjectData, hne, hfil]

/-- Witness for C10: a one-record feed whose record has a null UserID field
yields the all-null-session report for subject 1. -/
theorem parseSubjectData_zero_data_cases_witness :
    parseSubjectData
        ⟨[⟨0, 5, .vnull, .vnull, .vnull, .vnull, .vnull, .vnull, .vnull, none⟩]⟩ 1 =
      some { baseline := none, nap1 := none, nap2 := none, nap3 := none,
             rawData := [] } :=
  parseSubjectData_zero_data_cases.2
    ⟨[⟨0, 5, .vnull, .vnull, .vnull, .vnull, .vnull, .vnull, .vnull, none⟩]⟩ 1
    (by decide) (by decide)
